import Mathlib

/- Shallow embedding of the USAON benefit tool survey data model
   (src/usaon_benefit_tool/models/tables.py), the project routes
   (src/usaon_benefit_tool/routes/project/__init__.py), and the sankey
   aggregation those routes call. -/

/-- Modelled from the spec: the module usaon_benefit_tool/_types.py defining
ObservingSystemType is not under src/. The variants are the polymorphic
identities used in models/tables.py (other, observational, research), matching
spec section 3 (an observational or research sub-type). -/
inductive ObservingSystemType where
  | other
  | observational
  | research
  deriving DecidableEq, Repr

/-- Declarative summary of a table: its column names, its declared
UniqueConstraints (each a list of column names) and its declared unique
Indexes (index name and column names), as written in models/tables.py. -/
structure TableSchema where
  name : String
  columns : List String
  uniqueConstraints : List (List String)
  uniqueIndexes : List (String × List String)
  deriving DecidableEq, Repr

/-- Columns contributed by SurveyObjectFieldMixin in models/tables.py. -/
def surveyObjectFieldMixinColumns : List String :=
  ["short_name", "full_name", "organization", "funder", "funding_country",
   "website", "description", "contact_name", "contact_title", "contact_email",
   "tags", "version"]

def surveyObservingSystemSchema : TableSchema :=
  { name := "survey_observing_system"
  , columns := ["id", "survey_id", "type"] ++ surveyObjectFieldMixinColumns
  , uniqueConstraints := [["short_name", "survey_id"]]
  , uniqueIndexes := [] }

def surveyDataProductSchema : TableSchema :=
  { name := "survey_data_product"
  , columns := ["id", "survey_id"] ++ surveyObjectFieldMixinColumns
  , uniqueConstraints := [["short_name", "survey_id"]]
  , uniqueIndexes := [] }

def surveyApplicationSchema : TableSchema :=
  { name := "survey_application"
  , columns := ["id", "survey_id", "performance_criteria", "performance_rating"]
      ++ surveyObjectFieldMixinColumns
  , uniqueConstraints := [["short_name", "survey_id"]]
  , uniqueIndexes := [] }

/-- SurveySocietalBenefitArea does not use SurveyObjectFieldMixin: its columns
are only id, survey_id and societal_benefit_area_id, and its UniqueConstraint
is on (societal_benefit_area_id, survey_id). -/
def surveySocietalBenefitAreaSchema : TableSchema :=
  { name := "survey_societal_benefit_area"
  , columns := ["id", "survey_id", "societal_benefit_area_id"]
  , uniqueConstraints := [["societal_benefit_area_id", "survey_id"]]
  , uniqueIndexes := [] }

def surveyObservingSystemDataProductSchema : TableSchema :=
  { name := "survey_observing_system_data_product"
  , columns := ["id", "survey_observing_system_id", "survey_data_product_id",
      "criticality_rating", "performance_rating", "rationale",
      "needed_improvements"]
  , uniqueConstraints :=
      [["survey_observing_system_id", "survey_data_product_id"]]
  , uniqueIndexes :=
      [("idx_survey_observing_system_data_product",
        ["survey_observing_system_id", "survey_data_product_id"])] }

def surveyDataProductApplicationSchema : TableSchema :=
  { name := "survey_data_product_application"
  , columns := ["id", "survey_data_product_id", "survey_application_id",
      "criticality_rating", "performance_rating", "rationale",
      "needed_improvements"]
  , uniqueConstraints := [["survey_data_product_id", "survey_application_id"]]
  , uniqueIndexes :=
      [("idx_survey_data_product_application",
        ["survey_data_product_id", "survey_application_id"])] }

/-- Note the source writes the Index name as the literal string
'idx_\x7b__tablename__\x7d' (the f-string prefix is missing in
models/tables.py line 536), so the index name is not interpolated. -/
def surveyApplicationSocietalBenefitAreaSchema : TableSchema :=
  { name := "survey_application_societal_benefit_area"
  , columns := ["id", "survey_application_id",
      "survey_societal_benefit_area_id", "performance_rating"]
  , uniqueConstraints :=
      [["survey_application_id", "survey_societal_benefit_area_id"]]
  , uniqueIndexes :=
      [("idx_\x7b__tablename__\x7d",
        ["survey_application_id", "survey_societal_benefit_area_id"])] }

/- Check constraints, one per constrained column, with the comparison
   operators exactly as written in models/tables.py. -/

/-- CheckConstraint on SurveyApplication.performance_rating:
performance_rating>0 and performance_rating<101 (constraint name 0-100). -/
def surveyApplicationPerformanceRatingCheck (x : Int) : Bool :=
  decide (x > 0) && decide (x < 101)

/-- CheckConstraint on SurveyObservingSystemDataProduct.criticality_rating:
criticality_rating>=0 and criticality_rating<=100 (constraint name c0-100). -/
def osDpCriticalityRatingCheck (x : Int) : Bool :=
  decide (x >= 0) && decide (x <= 100)

/-- CheckConstraint on SurveyObservingSystemDataProduct.performance_rating:
performance_rating>=0 and performance_rating<=100 (constraint name 0-100). -/
def osDpPerformanceRatingCheck (x : Int) : Bool :=
  decide (x >= 0) && decide (x <= 100)

/-- CheckConstraint on SurveyDataProductApplication.criticality_rating:
criticality_rating>=0 and criticality_rating<=100 (constraint name c0-100). -/
def dpAppCriticalityRatingCheck (x : Int) : Bool :=
  decide (x >= 0) && decide (x <= 100)

/-- CheckConstraint on SurveyDataProductApplication.performance_rating:
performance_rating>=0 and performance_rating<=100 (constraint name 0-100). -/
def dpAppPerformanceRatingCheck (x : Int) : Bool :=
  decide (x >= 0) && decide (x <= 100)

/-- CheckConstraint on SurveyApplicationSocietalBenefitArea.performance_rating:
performance_rating>=0 and performance_rating<=100 (constraint name 0-100). -/
def appSbaPerformanceRatingCheck (x : Int) : Bool :=
  decide (x >= 0) && decide (x <= 100)

/- Row-level model of the tables.  Machine integers are modelled as Nat/Int;
   nullable columns as Option; the nullable foreign-key columns of the edge
   tables (declared without nullable=False in the source) as Option Nat. -/

/-- Fields shared by SurveyObservingSystem, SurveyDataProduct and
SurveyApplication through SurveyObjectFieldMixin.  Nullable columns are
Options. -/
structure SurveyObjectFields where
  short_name : String
  full_name : Option String
  organization : String
  funder : String
  funding_country : String
  website : Option String
  description : Option String
  contact_name : String
  contact_title : Option String
  contact_email : String
  tags : String
  version : Option String
  deriving DecidableEq, Repr

structure UserRow where
  id : Nat
  email : String
  name : String
  orcid : Option String
  role_id : String
  biography : Option String
  affiliation : Option String
  deriving DecidableEq, Repr

structure SurveyRow where
  id : Nat
  title : String
  status_id : String
  created_by_id : Nat
  created_timestamp : Nat
  updated_timestamp : Nat
  description : Option String
  «private» : Bool
  deriving DecidableEq, Repr

structure SurveyObservingSystemRow where
  id : Nat
  survey_id : Nat
  type : ObservingSystemType
  fields : SurveyObjectFields
  deriving DecidableEq, Repr

structure SurveyDataProductRow where
  id : Nat
  survey_id : Nat
  fields : SurveyObjectFields
  deriving DecidableEq, Repr

structure SurveyApplicationRow where
  id : Nat
  survey_id : Nat
  performance_criteria : Option String
  performance_rating : Int
  fields : SurveyObjectFields
  deriving DecidableEq, Repr

structure SurveySocietalBenefitAreaRow where
  id : Nat
  survey_id : Nat
  societal_benefit_area_id : String
  deriving DecidableEq, Repr

structure SurveyObservingSystemDataProductRow where
  id : Nat
  survey_observing_system_id : Option Nat
  survey_data_product_id : Option Nat
  criticality_rating : Int
  performance_rating : Int
  rationale : Option String
  needed_improvements : Option String
  deriving DecidableEq, Repr

structure SurveyDataProductApplicationRow where
  id : Nat
  survey_data_product_id : Option Nat
  survey_application_id : Option Nat
  criticality_rating : Int
  performance_rating : Int
  rationale : Option String
  needed_improvements : Option String
  deriving DecidableEq, Repr

structure SurveyApplicationSocietalBenefitAreaRow where
  id : Nat
  survey_application_id : Option Nat
  survey_societal_benefit_area_id : Option Nat
  performance_rating : Int
  deriving DecidableEq, Repr

/-- The node and edge tables of a survey graph, i.e. the fully loaded object
graph the aggregation consumes. -/
structure GraphTables where
  observing_systems : List SurveyObservingSystemRow
  data_products : List SurveyDataProductRow
  applications : List SurveyApplicationRow
  societal_benefit_areas : List SurveySocietalBenefitAreaRow
  os_dp_edges : List SurveyObservingSystemDataProductRow
  dp_app_edges : List SurveyDataProductApplicationRow
  app_sba_edges : List SurveyApplicationSocietalBenefitAreaRow
  deriving DecidableEq, Repr

/-- A database state over the schema of models/tables.py (reference tables
Role, Status and SocietalBenefitArea are modelled by their string primary
keys). -/
structure DBState where
  roles : List String
  statuses : List String
  users : List UserRow
  surveys : List SurveyRow
  societal_benefit_area_ref : List String
  graph : GraphTables
  deriving DecidableEq, Repr

/-- Checks that f is injective over the list, i.e. the uniqueness a
UniqueConstraint (or primary key) on the columns extracted by f enforces. -/
def nodupBy {α β : Type} [DecidableEq β] (f : α → β) : List α → Bool
  | [] => true
  | x :: xs => xs.all (fun y => decide (f x ≠ f y)) && nodupBy f xs

/-- A nullable foreign key is satisfied when it is NULL or references an
existing id. -/
def optFkOk (ids : List Nat) : Option Nat → Bool
  | none => true
  | some i => ids.contains i

/- Per-table constraints (primary key uniqueness, UniqueConstraints, check
   constraints), separated from the cross-table foreign-key conditions. -/

def surveyObservingSystemTableOk (rows : List SurveyObservingSystemRow) : Bool :=
  nodupBy (fun r => r.id) rows &&
  nodupBy (fun r => (r.fields.short_name, r.survey_id)) rows

def surveyDataProductTableOk (rows : List SurveyDataProductRow) : Bool :=
  nodupBy (fun r => r.id) rows &&
  nodupBy (fun r => (r.fields.short_name, r.survey_id)) rows

def surveyApplicationTableOk (rows : List SurveyApplicationRow) : Bool :=
  nodupBy (fun r => r.id) rows &&
  nodupBy (fun r => (r.fields.short_name, r.survey_id)) rows &&
  rows.all (fun r => surveyApplicationPerformanceRatingCheck r.performance_rating)

def surveySocietalBenefitAreaTableOk
    (rows : List SurveySocietalBenefitAreaRow) : Bool :=
  nodupBy (fun r => r.id) rows &&
  nodupBy (fun r => (r.societal_benefit_area_id, r.survey_id)) rows

/-- Uniqueness of the (source-id, target-id) pair under SQL semantics: rows
with a NULL in a constrained column do not conflict, so the constraint is
uniqueness of the pair among rows whose both ids are non-NULL. -/
def osDpEdgeTableOk (rows : List SurveyObservingSystemDataProductRow) : Bool :=
  nodupBy (fun e => e.id) rows &&
  nodupBy (fun e => (e.survey_observing_system_id, e.survey_data_product_id))
    (rows.filter (fun e =>
      e.survey_observing_system_id.isSome && e.survey_data_product_id.isSome)) &&
  rows.all (fun e =>
    osDpCriticalityRatingCheck e.criticality_rating &&
    osDpPerformanceRatingCheck e.performance_rating)

def dpAppEdgeTableOk (rows : List SurveyDataProductApplicationRow) : Bool :=
  nodupBy (fun e => e.id) rows &&
  nodupBy (fun e => (e.survey_data_product_id, e.survey_application_id))
    (rows.filter (fun e =>
      e.survey_data_product_id.isSome && e.survey_application_id.isSome)) &&
  rows.all (fun e =>
    dpAppCriticalityRatingCheck e.criticality_rating &&
    dpAppPerformanceRatingCheck e.performance_rating)

def appSbaEdgeTableOk
    (rows : List SurveyApplicationSocietalBenefitAreaRow) : Bool :=
  nodupBy (fun e => e.id) rows &&
  nodupBy (fun e => (e.survey_application_id, e.survey_societal_benefit_area_id))
    (rows.filter (fun e =>
      e.survey_application_id.isSome &&
      e.survey_societal_benefit_area_id.isSome)) &&
  rows.all (fun e => appSbaPerformanceRatingCheck e.performance_rating)

/-- All declared constraints of the schema of models/tables.py hold: per-table
primary key uniqueness, UniqueConstraints and check constraints, plus every
foreign key.  This is everything the database enforces; note no condition
relates an edge to any survey. -/
def dbValid (db : DBState) : Bool :=
  nodupBy (fun u => u.id) db.users &&
  nodupBy (fun u => u.email) db.users &&
  db.users.all (fun u => db.roles.contains u.role_id) &&
  nodupBy (fun s => s.id) db.surveys &&
  db.surveys.all (fun s =>
    db.statuses.contains s.status_id &&
    (db.users.map (fun u => u.id)).contains s.created_by_id) &&
  surveyObservingSystemTableOk db.graph.observing_systems &&
  db.graph.observing_systems.all (fun r =>
    (db.surveys.map (fun s => s.id)).contains r.survey_id) &&
  surveyDataProductTableOk db.graph.data_products &&
  db.graph.data_products.all (fun r =>
    (db.surveys.map (fun s => s.id)).contains r.survey_id) &&
  surveyApplicationTableOk db.graph.applications &&
  db.graph.applications.all (fun r =>
    (db.surveys.map (fun s => s.id)).contains r.survey_id) &&
  surveySocietalBenefitAreaTableOk db.graph.societal_benefit_areas &&
  db.graph.societal_benefit_areas.all (fun r =>
    (db.surveys.map (fun s => s.id)).contains r.survey_id &&
    db.societal_benefit_area_ref.contains r.societal_benefit_area_id) &&
  osDpEdgeTableOk db.graph.os_dp_edges &&
  db.graph.os_dp_edges.all (fun e =>
    optFkOk (db.graph.observing_systems.map (fun r => r.id))
      e.survey_observing_system_id &&
    optFkOk (db.graph.data_products.map (fun r => r.id))
      e.survey_data_product_id) &&
  dpAppEdgeTableOk db.graph.dp_app_edges &&
  db.graph.dp_app_edges.all (fun e =>
    optFkOk (db.graph.data_products.map (fun r => r.id))
      e.survey_data_product_id &&
    optFkOk (db.graph.applications.map (fun r => r.id))
      e.survey_application_id) &&
  appSbaEdgeTableOk db.graph.app_sba_edges &&
  db.graph.app_sba_edges.all (fun e =>
    optFkOk (db.graph.applications.map (fun r => r.id))
      e.survey_application_id &&
    optFkOk (db.graph.societal_benefit_areas.map (fun r => r.id))
      e.survey_societal_benefit_area_id)

/- The same-survey property of the spec (section 3), stated over a database
   state: for every edge with both endpoints present, the endpoint nodes
   belong to the same survey.  Edges themselves carry no survey column. -/

def osDpEdgeSameSurvey (db : DBState)
    (e : SurveyObservingSystemDataProductRow) : Bool :=
  match e.survey_observing_system_id, e.survey_data_product_id with
  | some o, some d =>
    match db.graph.observing_systems.find? (fun n => n.id == o),
        db.graph.data_products.find? (fun n => n.id == d) with
    | some n1, some n2 => n1.survey_id == n2.survey_id
    | _, _ => true
  | _, _ => true

def dpAppEdgeSameSurvey (db : DBState)
    (e : SurveyDataProductApplicationRow) : Bool :=
  match e.survey_data_product_id, e.survey_application_id with
  | some d, some a =>
    match db.graph.data_products.find? (fun n => n.id == d),
        db.graph.applications.find? (fun n => n.id == a) with
    | some n1, some n2 => n1.survey_id == n2.survey_id
    | _, _ => true
  | _, _ => true

def appSbaEdgeSameSurvey (db : DBState)
    (e : SurveyApplicationSocietalBenefitAreaRow) : Bool :=
  match e.survey_application_id, e.survey_societal_benefit_area_id with
  | some a, some b =>
    match db.graph.applications.find? (fun n => n.id == a),
        db.graph.societal_benefit_areas.find? (fun n => n.id == b) with
    | some n1, some n2 => n1.survey_id == n2.survey_id
    | _, _ => true
  | _, _ => true

/-- Every edge of every variant joins two nodes of the same survey. -/
def edgesSameSurvey (db : DBState) : Bool :=
  db.graph.os_dp_edges.all (fun e => osDpEdgeSameSurvey db e) &&
  db.graph.dp_app_edges.all (fun e => dpAppEdgeSameSurvey db e) &&
  db.graph.app_sba_edges.all (fun e => appSbaEdgeSameSurvey db e)

/- Relationship accessors of the three edge classes.  A relationship on a
   foreign-key column resolves to the referenced row (or none when the key is
   NULL or dangling). -/

/-- The observing_system relationship of SurveyObservingSystemDataProduct. -/
def osDpObservingSystem (g : GraphTables)
    (e : SurveyObservingSystemDataProductRow) :
    Option SurveyObservingSystemRow :=
  e.survey_observing_system_id.bind
    (fun i => g.observing_systems.find? (fun n => n.id == i))

/-- The data_product relationship of SurveyObservingSystemDataProduct. -/
def osDpDataProduct (g : GraphTables)
    (e : SurveyObservingSystemDataProductRow) : Option SurveyDataProductRow :=
  e.survey_data_product_id.bind
    (fun i => g.data_products.find? (fun n => n.id == i))

/-- The source property of SurveyObservingSystemDataProduct: returns
self.observing_system. -/
def osDpSource (g : GraphTables) (e : SurveyObservingSystemDataProductRow) :
    Option SurveyObservingSystemRow :=
  osDpObservingSystem g e

/-- The target property of SurveyObservingSystemDataProduct: returns
self.data_product. -/
def osDpTarget (g : GraphTables) (e : SurveyObservingSystemDataProductRow) :
    Option SurveyDataProductRow :=
  osDpDataProduct g e

/-- The data_product relationship of SurveyDataProductApplication. -/
def dpAppDataProduct (g : GraphTables)
    (e : SurveyDataProductApplicationRow) : Option SurveyDataProductRow :=
  e.survey_data_product_id.bind
    (fun i => g.data_products.find? (fun n => n.id == i))

/-- The application relationship of SurveyDataProductApplication. -/
def dpAppApplication (g : GraphTables)
    (e : SurveyDataProductApplicationRow) : Option SurveyApplicationRow :=
  e.survey_application_id.bind
    (fun i => g.applications.find? (fun n => n.id == i))

/-- The source property of SurveyDataProductApplication: returns
self.data_product. -/
def dpAppSource (g : GraphTables) (e : SurveyDataProductApplicationRow) :
    Option SurveyDataProductRow :=
  dpAppDataProduct g e

/-- The target property of SurveyDataProductApplication: returns
self.application. -/
def dpAppTarget (g : GraphTables) (e : SurveyDataProductApplicationRow) :
    Option SurveyApplicationRow :=
  dpAppApplication g e

/-- The application relationship of SurveyApplicationSocietalBenefitArea. -/
def appSbaApplication (g : GraphTables)
    (e : SurveyApplicationSocietalBenefitAreaRow) :
    Option SurveyApplicationRow :=
  e.survey_application_id.bind
    (fun i => g.applications.find? (fun n => n.id == i))

/-- The societal_benefit_area relationship of
SurveyApplicationSocietalBenefitArea. -/
def appSbaSocietalBenefitArea (g : GraphTables)
    (e : SurveyApplicationSocietalBenefitAreaRow) :
    Option SurveySocietalBenefitAreaRow :=
  e.survey_societal_benefit_area_id.bind
    (fun i => g.societal_benefit_areas.find? (fun n => n.id == i))

/-- The source property of SurveyApplicationSocietalBenefitArea: returns
self.application. -/
def appSbaSource (g : GraphTables)
    (e : SurveyApplicationSocietalBenefitAreaRow) :
    Option SurveyApplicationRow :=
  appSbaApplication g e

/-- The target property of SurveyApplicationSocietalBenefitArea: returns
self.societal_benefit_area. -/
def appSbaTarget (g : GraphTables)
    (e : SurveyApplicationSocietalBenefitAreaRow) :
    Option SurveySocietalBenefitAreaRow :=
  appSbaSocietalBenefitArea g e

/- IORelationshipMixin.__io__ and Python class definition. -/

/-- What a model class declares, as far as the IORelationshipMixin is
concerned: its name and, when the class body declares an
input_relationships or output_relationships relationship, the name of the
related class (hasattr corresponds to isSome). -/
structure ModelClassDecl where
  name : String
  input_relationships : Option String
  output_relationships : Option String
  deriving DecidableEq, Repr

/-- The IORelationship TypedDict: both keys optional. -/
structure IORelationship where
  input : Option String
  output : Option String
  deriving DecidableEq, Repr

/-- IORelationshipMixin.__io__ of models/tables.py: builds the dictionary from
the declared relations and raises a RuntimeError (modelled as Except.error)
when the dictionary is empty, i.e. when the class declares neither
relation.  In the source this classmethod is decorated with functools.cache
and runs only when first called; nothing in the model module calls it. -/
def io__ (c : ModelClassDecl) : Except String IORelationship :=
  let io : IORelationship :=
    { input := c.input_relationships, output := c.output_relationships }
  if io = { input := none, output := none } then
    Except.error
      "Please only use IORelationshipMixin on a model with input_relationships or output_relationships"
  else
    Except.ok io

/-- Python class definition for a model using IORelationshipMixin: executing
the class body defines the (cached) classmethod but never invokes it, and no
metaclass hook validates the relations, so class definition always
succeeds. -/
def defineModelClass (c : ModelClassDecl) : Except String ModelClassDecl :=
  Except.ok c

/-- SurveyObservingSystem declares only output_relationships
(to SurveyObservingSystemDataProduct). -/
def surveyObservingSystemDecl : ModelClassDecl :=
  { name := "SurveyObservingSystem"
  , input_relationships := none
  , output_relationships := some "SurveyObservingSystemDataProduct" }

/-- SurveyDataProduct declares input_relationships
(SurveyObservingSystemDataProduct) and output_relationships
(SurveyDataProductApplication). -/
def surveyDataProductDecl : ModelClassDecl :=
  { name := "SurveyDataProduct"
  , input_relationships := some "SurveyObservingSystemDataProduct"
  , output_relationships := some "SurveyDataProductApplication" }

/-- SurveyApplication declares input_relationships
(SurveyDataProductApplication) and output_relationships
(SurveyApplicationSocietalBenefitArea). -/
def surveyApplicationDecl : ModelClassDecl :=
  { name := "SurveyApplication"
  , input_relationships := some "SurveyDataProductApplication"
  , output_relationships := some "SurveyApplicationSocietalBenefitArea" }

/-- SurveySocietalBenefitArea declares only input_relationships
(SurveyApplicationSocietalBenefitArea). -/
def surveySocietalBenefitAreaDecl : ModelClassDecl :=
  { name := "SurveySocietalBenefitArea"
  , input_relationships := some "SurveyApplicationSocietalBenefitArea"
  , output_relationships := none }

/-- A hypothetical node type using IORelationshipMixin that declares neither
relation. -/
def disconnectedDecl : ModelClassDecl :=
  { name := "Disconnected"
  , input_relationships := none
  , output_relationships := none }

/- Project routes (src/usaon_benefit_tool/routes/project/__init__.py). -/

/-- Attributes the Survey class of models/tables.py defines (columns and
relationships).  There is no response attribute. -/
def surveyModelAttributes : List String :=
  ["id", "title", "status_id", "created_by_id", "created_timestamp",
   "updated_timestamp", "description", "private", "created_by", "status",
   "observing_systems", "data_products", "applications",
   "societal_benefit_areas"]

inductive RouteOutcome where
  | http404
  | attributeError (attr : String)
  | rendered (template : String)
  deriving DecidableEq, Repr

/-- db.get_or_404(Survey, project_id): fetch by primary key, one lookup. -/
def get_or_404 (db : DBState) (project_id : Nat) : Option SurveyRow :=
  db.surveys.find? (fun s => s.id == project_id)

/-- Python attribute access on the fetched Survey instance: AttributeError
when the class defines no such attribute. -/
def surveyGetattr (attr : String) : Except String Unit :=
  if surveyModelAttributes.contains attr then Except.ok ()
  else Except.error attr

/-- GET /project/(project_id): 404 on unknown id, otherwise evaluates
project.response and renders project/user_guide.html. -/
def view_project (db : DBState) (project_id : Nat) : RouteOutcome :=
  match get_or_404 db project_id with
  | none => RouteOutcome.http404
  | some _ =>
    match surveyGetattr "response" with
    | Except.error a => RouteOutcome.attributeError a
    | Except.ok _ => RouteOutcome.rendered "project/user_guide.html"

/-- GET /project/(project_id)/overview: 404 on unknown id, otherwise evaluates
project.response (in the conditional expression) and renders
project/overview.html. -/
def view_project_overview (db : DBState) (project_id : Nat) : RouteOutcome :=
  match get_or_404 db project_id with
  | none => RouteOutcome.http404
  | some _ =>
    match surveyGetattr "response" with
    | Except.error a => RouteOutcome.attributeError a
    | Except.ok _ => RouteOutcome.rendered "project/overview.html"

/-- GET /project/(project_id)/edit: 404 on unknown id, otherwise evaluates
project.response (in the conditional expression) and renders
project/edit.html. -/
def edit_project (db : DBState) (project_id : Nat) : RouteOutcome :=
  match get_or_404 db project_id with
  | none => RouteOutcome.http404
  | some _ =>
    match surveyGetattr "response" with
    | Except.error a => RouteOutcome.attributeError a
    | Except.ok _ => RouteOutcome.rendered "project/edit.html"

/- Survey creation defaults. -/

/-- Context in which a Survey row is inserted.  Modelled from the spec: the
STATUSES constant lives in usaon_benefit_tool/constants/status.py, which is
not under src/, so the configured status list is carried abstractly here;
current_user and the clock are the request context. -/
structure CreationContext where
  statuses : List String
  current_user_id : Nat
  now : Nat
  deriving DecidableEq, Repr

/-- Inserting a Survey without explicit values applies the column defaults of
models/tables.py: status_id defaults to STATUSES[0], created_by_id to
current_user.id, both timestamps to datetime.now(), private to False, and
description (no default, nullable) to NULL. -/
def newSurvey (ctx : CreationContext) (id : Nat) (title : String)
    (h : ctx.statuses ≠ []) : SurveyRow :=
  { id := id
  , title := title
  , status_id := ctx.statuses.head h
  , created_by_id := ctx.current_user_id
  , created_timestamp := ctx.now
  , updated_timestamp := ctx.now
  , description := none
  , «private» := false }

/- Validated inserts: the persistence layer rejects a row violating a check
   constraint. -/

def insertSurveyApplication (rows : List SurveyApplicationRow)
    (r : SurveyApplicationRow) : Except String (List SurveyApplicationRow) :=
  if surveyApplicationPerformanceRatingCheck r.performance_rating then
    Except.ok (rows ++ [r])
  else
    Except.error "IntegrityError: check constraint 0-100 violated"

def insertOsDpEdge (rows : List SurveyObservingSystemDataProductRow)
    (e : SurveyObservingSystemDataProductRow) :
    Except String (List SurveyObservingSystemDataProductRow) :=
  if osDpCriticalityRatingCheck e.criticality_rating &&
      osDpPerformanceRatingCheck e.performance_rating then
    Except.ok (rows ++ [e])
  else
    Except.error "IntegrityError: check constraint violated"

def insertDpAppEdge (rows : List SurveyDataProductApplicationRow)
    (e : SurveyDataProductApplicationRow) :
    Except String (List SurveyDataProductApplicationRow) :=
  if dpAppCriticalityRatingCheck e.criticality_rating &&
      dpAppPerformanceRatingCheck e.performance_rating then
    Except.ok (rows ++ [e])
  else
    Except.error "IntegrityError: check constraint violated"

def insertAppSbaEdge (rows : List SurveyApplicationSocietalBenefitAreaRow)
    (e : SurveyApplicationSocietalBenefitAreaRow) :
    Except String (List SurveyApplicationSocietalBenefitAreaRow) :=
  if appSbaPerformanceRatingCheck e.performance_rating then
    Except.ok (rows ++ [e])
  else
    Except.error "IntegrityError: check constraint 0-100 violated"

/- Aggregation ("sankey"), modelled from the spec. -/

/-- A link of the flow diagram: source node id, target node id, weight. -/
structure SankeyLink where
  source : Nat
  target : Nat
  weight : Int
  deriving DecidableEq, Repr

/-- Modelled from the spec: usaon_benefit_tool/util/full_sankey.py is not
under src/ (only its caller, routes/project, is).  Spec section 4.2: the
function consumes the fully loaded object graph and produces the per-stage
link sequence in stage order, insertion order within a stage; each link's
weight is the connecting edge's own performance rating, for all three edge
variants.  An edge one of whose endpoint ids is NULL yields no link. -/
def sankey (g : GraphTables) : List SankeyLink :=
  g.os_dp_edges.filterMap (fun e =>
    match e.survey_observing_system_id, e.survey_data_product_id with
    | some o, some d => some { source := o, target := d, weight := e.performance_rating }
    | _, _ => none)
  ++ g.dp_app_edges.filterMap (fun e =>
    match e.survey_data_product_id, e.survey_application_id with
    | some d, some a => some { source := d, target := a, weight := e.performance_rating }
    | _, _ => none)
  ++ g.app_sba_edges.filterMap (fun e =>
    match e.survey_application_id, e.survey_societal_benefit_area_id with
    | some a, some b => some { source := a, target := b, weight := e.performance_rating }
    | _, _ => none)

/-- Modelled from the spec: average of the values weighted by the paired
weights, none when the total weight is zero (spec section 4.2 edge case: a
node with zero outgoing edges must not divide by zero and gets a neutral,
here undefined, color). -/
def weightedAvg (pairs : List (Int × Int)) : Option Int :=
  let total := (pairs.map (fun p => p.1)).sum
  if total = 0 then none
  else some ((pairs.map (fun p => p.1 * p.2)).sum / total)

/-- Performance ratings of the outgoing edges of an ObservingSystem node. -/
def outgoingRatingsObservingSystem (g : GraphTables) (nodeId : Nat) :
    List Int :=
  (g.os_dp_edges.filter
    (fun e => e.survey_observing_system_id == some nodeId)).map
    (fun e => e.performance_rating)

/-- Performance ratings of the outgoing edges of a DataProduct node. -/
def outgoingRatingsDataProduct (g : GraphTables) (nodeId : Nat) : List Int :=
  (g.dp_app_edges.filter
    (fun e => e.survey_data_product_id == some nodeId)).map
    (fun e => e.performance_rating)

/-- Performance ratings of the outgoing edges of an Application node. -/
def outgoingRatingsApplication (g : GraphTables) (nodeId : Nat) : List Int :=
  (g.app_sba_edges.filter
    (fun e => e.survey_application_id == some nodeId)).map
    (fun e => e.performance_rating)

/-- Modelled from the spec: a non-Application node is colored by the weighted
average of its outgoing edges' performance ratings; the ratings are weighted
by the link weights, which for these edges are the performance ratings
themselves. -/
def nodeColorObservingSystem (g : GraphTables) (nodeId : Nat) : Option Int :=
  weightedAvg ((outgoingRatingsObservingSystem g nodeId).map (fun r => (r, r)))

/-- Modelled from the spec: DataProduct nodes are colored like ObservingSystem
nodes, by the weighted average of outgoing edge performance ratings. -/
def nodeColorDataProduct (g : GraphTables) (nodeId : Nat) : Option Int :=
  weightedAvg ((outgoingRatingsDataProduct g nodeId).map (fun r => (r, r)))

/-- Modelled from the spec: an Application node is colored by its own
intrinsic performance_rating field, not by its outgoing (downstream SBA)
edges. -/
def nodeColorApplication (g : GraphTables) (nodeId : Nat) : Option Int :=
  (g.applications.find? (fun a => a.id == nodeId)).map
    (fun a => a.performance_rating)

/- Concrete instances used to evaluate the definitions. -/

/-- Builder filling the mandatory mixin string fields. -/
def mkFields (name : String) : SurveyObjectFields :=
  { short_name := name
  , full_name := none
  , organization := "org"
  , funder := "funder"
  , funding_country := "USA"
  , website := none
  , description := none
  , contact_name := "contact"
  , contact_title := none
  , contact_email := "contact@example.com"
  , tags := ""
  , version := none }

/-- The aggregation scenario of spec section 8: O (id 1), D (id 2), A (id 3,
intrinsic performance_rating 90), edges O to D with performance 80 and D to A
with performance 60, plus an SBA node (id 4) and an A to SBA edge with
performance 10 to show the Application color ignores downstream edges. -/
def c1Graph : GraphTables :=
  { observing_systems := [{ id := 1, survey_id := 1, type := ObservingSystemType.other, fields := mkFields "O" }]
  , data_products := [{ id := 2, survey_id := 1, fields := mkFields "D" }]
  , applications := [{ id := 3, survey_id := 1, performance_criteria := none, performance_rating := 90, fields := mkFields "A" }]
  , societal_benefit_areas := [{ id := 4, survey_id := 1, societal_benefit_area_id := "sba-1" }]
  , os_dp_edges := [{ id := 10, survey_observing_system_id := some 1, survey_data_product_id := some 2, criticality_rating := 50, performance_rating := 80, rationale := none, needed_improvements := none }]
  , dp_app_edges := [{ id := 11, survey_data_product_id := some 2, survey_application_id := some 3, criticality_rating := 50, performance_rating := 60, rationale := none, needed_improvements := none }]
  , app_sba_edges := [{ id := 12, survey_application_id := some 3, survey_societal_benefit_area_id := some 4, performance_rating := 10 }] }

/-- A database state satisfying every declared constraint in which an edge
connects an ObservingSystem of survey 1 to a DataProduct of survey 2. -/
def crossSurveyDb : DBState :=
  { roles := ["analyst"]
  , statuses := ["draft"]
  , users := [{ id := 1, email := "u@example.com", name := "U", orcid := none, role_id := "analyst", biography := none, affiliation := none }]
  , surveys :=
      [{ id := 1, title := "S1", status_id := "draft", created_by_id := 1, created_timestamp := 0, updated_timestamp := 0, description := none, «private» := false },
       { id := 2, title := "S2", status_id := "draft", created_by_id := 1, created_timestamp := 0, updated_timestamp := 0, description := none, «private» := false }]
  , societal_benefit_area_ref := []
  , graph :=
      { observing_systems := [{ id := 1, survey_id := 1, type := ObservingSystemType.other, fields := mkFields "O" }]
      , data_products := [{ id := 2, survey_id := 2, fields := mkFields "D" }]
      , applications := []
      , societal_benefit_areas := []
      , os_dp_edges := [{ id := 10, survey_observing_system_id := some 1, survey_data_product_id := some 2, criticality_rating := 50, performance_rating := 50, rationale := none, needed_improvements := none }]
      , dp_app_edges := []
      , app_sba_edges := [] } }

/-- Two valid os-dp edge rows with the same non-NULL source and NULL targets:
under SQL semantics the pair uniqueness does not conflict. -/
def nullTargetEdge1 : SurveyObservingSystemDataProductRow :=
  { id := 20, survey_observing_system_id := some 1
  , survey_data_product_id := none, criticality_rating := 50
  , performance_rating := 50, rationale := none, needed_improvements := none }

def nullTargetEdge2 : SurveyObservingSystemDataProductRow :=
  { id := 21, survey_observing_system_id := some 1
  , survey_data_product_id := none, criticality_rating := 50
  , performance_rating := 50, rationale := none, needed_improvements := none }

/-- Example rows for the short_name uniqueness witness. -/
def osRowA : SurveyObservingSystemRow :=
  { id := 1, survey_id := 1, type := ObservingSystemType.other
  , fields := mkFields "alpha" }

def osRowB : SurveyObservingSystemRow :=
  { id := 2, survey_id := 1, type := ObservingSystemType.other
  , fields := mkFields "beta" }

/-- A database with a single Survey (id 1), used to evaluate the routes. -/
def singleSurveyDb : DBState :=
  { roles := ["analyst"]
  , statuses := ["draft"]
  , users := [{ id := 1, email := "u@example.com", name := "U", orcid := none, role_id := "analyst", biography := none, affiliation := none }]
  , surveys := [{ id := 1, title := "S1", status_id := "draft", created_by_id := 1, created_timestamp := 0, updated_timestamp := 0, description := none, «private» := false }]
  , societal_benefit_area_ref := []
  , graph :=
      { observing_systems := [], data_products := [], applications := []
      , societal_benefit_areas := [], os_dp_edges := [], dp_app_edges := []
      , app_sba_edges := [] } }

/-- Example creation context. -/
def exampleCtx : CreationContext :=
  { statuses := ["draft", "published"], current_user_id := 7, now := 1700000000 }

/-- The ObservingSystem node of the aggregation scenario. -/
def c1ObsNode : SurveyObservingSystemRow :=
  { id := 1, survey_id := 1, type := ObservingSystemType.other
  , fields := mkFields "O" }

/-- The O to D edge of the aggregation scenario. -/
def c1OsDpEdge : SurveyObservingSystemDataProductRow :=
  { id := 10, survey_observing_system_id := some 1
  , survey_data_product_id := some 2, criticality_rating := 50
  , performance_rating := 80, rationale := none, needed_improvements := none }

/- Theorems. -/

/-- Key-uniqueness transfer: if f is injective over the list in the sense of
nodupBy, two members with the same key are the same element. -/
theorem nodupBy_eq_of_mem {α β : Type} [DecidableEq β] (f : α → β) :
    ∀ (xs : List α) (x y : α), nodupBy f xs = true → x ∈ xs → y ∈ xs →
      f x = f y → x = y := by
  intro xs
  induction xs with
  | nil => intro x y h hx hy hf; cases hx
  | cons a as ih =>
    intro x y h hx hy hf
    simp only [nodupBy, Bool.and_eq_true, List.all_eq_true] at h
    obtain ⟨h1, h2⟩ := h
    rcases List.mem_cons.mp hx with rfl | hx2
    · rcases List.mem_cons.mp hy with rfl | hy2
      · rfl
      · have hne := h1 y hy2
        rw [decide_eq_true_iff] at hne
        exact absurd hf hne
    · rcases List.mem_cons.mp hy with rfl | hy2
      · have hne := h1 x hx2
        rw [decide_eq_true_iff] at hne
        exact absurd hf.symm hne
      · exact ih x y h2 hx2 hy2 hf

/-- C1: on the scenario survey (one ObservingSystem O, one DataProduct D, one
Application A with intrinsic performance_rating 90, edges O to D with
performance 80 and D to A with performance 60), the aggregation yields the
link sequence [(O,D,80), (D,A,60), ...] with each link weighted by the
connecting edge's own performance rating; A's node color is its intrinsic 90
and differs from any average of its outgoing SBA edges, while each
non-Application node's color is the weighted average of its outgoing edge
performance ratings. -/
theorem c1_sankey_scenario :
    sankey c1Graph =
      [{ source := 1, target := 2, weight := 80 },
       { source := 2, target := 3, weight := 60 },
       { source := 3, target := 4, weight := 10 }]
    ∧ nodeColorApplication c1Graph 3 = some 90
    ∧ nodeColorObservingSystem c1Graph 1 = some 80
    ∧ nodeColorDataProduct c1Graph 2 = some 60
    ∧ nodeColorApplication c1Graph 3 ≠
        weightedAvg ((outgoingRatingsApplication c1Graph 3).map
          (fun r => (r, r))) := by
  refine ⟨rfl, rfl, by decide, by decide, by decide⟩

/-- C2 counterexample: a model class using IORelationshipMixin that declares
neither relation is defined without error (Python class definition never
invokes the cached classmethod), so the configuration failure does not occur
at class definition/startup time; it occurs only when the lookup itself
runs. -/
theorem c2_counterexample :
    defineModelClass disconnectedDecl = Except.ok disconnectedDecl ∧
    (io__ disconnectedDecl).isOk = false :=
  ⟨rfl, rfl⟩

/-- C2 (amended): for a node type declaring neither an input nor an output
relation, class definition succeeds, and the uniform lookup fails loudly with
the configuration error at the first call of the lookup. -/
theorem c2_io_fails_at_first_lookup (c : ModelClassDecl)
    (hin : c.input_relationships = none)
    (hout : c.output_relationships = none) :
    defineModelClass c = Except.ok c ∧
    io__ c = Except.error
      "Please only use IORelationshipMixin on a model with input_relationships or output_relationships" := by
  refine ⟨rfl, ?_⟩
  simp [io__, hin, hout]

/-- C2 witness: the amended statement evaluated at the concrete disconnected
declaration. -/
theorem c2_witness :
    defineModelClass disconnectedDecl = Except.ok disconnectedDecl ∧
    io__ disconnectedDecl = Except.error
      "Please only use IORelationshipMixin on a model with input_relationships or output_relationships" :=
  c2_io_fails_at_first_lookup disconnectedDecl rfl rfl

/-- Insertion into survey_application succeeds exactly when the check
constraint on performance_rating holds. -/
theorem insertSurveyApplication_isOk (rows : List SurveyApplicationRow)
    (r : SurveyApplicationRow) :
    (insertSurveyApplication rows r).isOk =
      surveyApplicationPerformanceRatingCheck r.performance_rating := by
  by_cases h :
      surveyApplicationPerformanceRatingCheck r.performance_rating = true
  · simp [insertSurveyApplication, h, Except.isOk, Except.toBool]
  · simp only [Bool.not_eq_true] at h
    simp [insertSurveyApplication, h, Except.isOk, Except.toBool]

/-- Insertion into survey_observing_system_data_product succeeds exactly when
both rating check constraints hold. -/
theorem insertOsDpEdge_isOk (rows : List SurveyObservingSystemDataProductRow)
    (e : SurveyObservingSystemDataProductRow) :
    (insertOsDpEdge rows e).isOk =
      (osDpCriticalityRatingCheck e.criticality_rating &&
        osDpPerformanceRatingCheck e.performance_rating) := by
  by_cases h : (osDpCriticalityRatingCheck e.criticality_rating &&
      osDpPerformanceRatingCheck e.performance_rating) = true
  · simp [insertOsDpEdge, h, Except.isOk, Except.toBool]
  · simp only [Bool.not_eq_true] at h
    simp [insertOsDpEdge, h, Except.isOk, Except.toBool]

/-- Insertion into survey_data_product_application succeeds exactly when both
rating check constraints hold. -/
theorem insertDpAppEdge_isOk (rows : List SurveyDataProductApplicationRow)
    (e : SurveyDataProductApplicationRow) :
    (insertDpAppEdge rows e).isOk =
      (dpAppCriticalityRatingCheck e.criticality_rating &&
        dpAppPerformanceRatingCheck e.performance_rating) := by
  by_cases h : (dpAppCriticalityRatingCheck e.criticality_rating &&
      dpAppPerformanceRatingCheck e.performance_rating) = true
  · simp [insertDpAppEdge, h, Except.isOk, Except.toBool]
  · simp only [Bool.not_eq_true] at h
    simp [insertDpAppEdge, h, Except.isOk, Except.toBool]

/-- Insertion into survey_application_societal_benefit_area succeeds exactly
when the performance_rating check constraint holds. -/
theorem insertAppSbaEdge_isOk
    (rows : List SurveyApplicationSocietalBenefitAreaRow)
    (e : SurveyApplicationSocietalBenefitAreaRow) :
    (insertAppSbaEdge rows e).isOk =
      appSbaPerformanceRatingCheck e.performance_rating := by
  by_cases h : appSbaPerformanceRatingCheck e.performance_rating = true
  · simp [insertAppSbaEdge, h, Except.isOk, Except.toBool]
  · simp only [Bool.not_eq_true] at h
    simp [insertAppSbaEdge, h, Except.isOk, Except.toBool]

/-- C3: every rating field is an integer constrained to the closed interval
from 0 to 100, except SurveyApplication.performance_rating whose accepted
range is the half-open interval over 0 up to 100 (0 is rejected); a row whose
rating falls outside the range is rejected by the persistence layer. -/
theorem c3_rating_ranges (x : Int) :
    (surveyApplicationPerformanceRatingCheck x = true ↔ 0 < x ∧ x ≤ 100)
  ∧ (osDpCriticalityRatingCheck x = true ↔ 0 ≤ x ∧ x ≤ 100)
  ∧ (osDpPerformanceRatingCheck x = true ↔ 0 ≤ x ∧ x ≤ 100)
  ∧ (dpAppCriticalityRatingCheck x = true ↔ 0 ≤ x ∧ x ≤ 100)
  ∧ (dpAppPerformanceRatingCheck x = true ↔ 0 ≤ x ∧ x ≤ 100)
  ∧ (appSbaPerformanceRatingCheck x = true ↔ 0 ≤ x ∧ x ≤ 100)
  ∧ ((insertSurveyApplication []
        { id := 1, survey_id := 1, performance_criteria := none
        , performance_rating := x, fields := mkFields "A" }).isOk = true ↔
      0 < x ∧ x ≤ 100)
  ∧ ((insertOsDpEdge []
        { id := 1, survey_observing_system_id := none
        , survey_data_product_id := none, criticality_rating := x
        , performance_rating := x, rationale := none
        , needed_improvements := none }).isOk = true ↔
      0 ≤ x ∧ x ≤ 100)
  ∧ ((insertDpAppEdge []
        { id := 1, survey_data_product_id := none
        , survey_application_id := none, criticality_rating := x
        , performance_rating := x, rationale := none
        , needed_improvements := none }).isOk = true ↔
      0 ≤ x ∧ x ≤ 100)
  ∧ ((insertAppSbaEdge []
        { id := 1, survey_application_id := none
        , survey_societal_benefit_area_id := none
        , performance_rating := x }).isOk = true ↔
      0 ≤ x ∧ x ≤ 100) := by
  refine ⟨?_, ?_, ?_, ?_, ?_, ?_, ?_, ?_, ?_, ?_⟩
  · simp only [surveyApplicationPerformanceRatingCheck, Bool.and_eq_true,
      decide_eq_true_iff]
    all_goals omega
  · simp only [osDpCriticalityRatingCheck, Bool.and_eq_true,
      decide_eq_true_iff]
  · simp only [osDpPerformanceRatingCheck, Bool.and_eq_true,
      decide_eq_true_iff]
  · simp only [dpAppCriticalityRatingCheck, Bool.and_eq_true,
      decide_eq_true_iff]
  · simp only [dpAppPerformanceRatingCheck, Bool.and_eq_true,
      decide_eq_true_iff]
  · simp only [appSbaPerformanceRatingCheck, Bool.and_eq_true,
      decide_eq_true_iff]
  · rw [insertSurveyApplication_isOk]
    simp only [surveyApplicationPerformanceRatingCheck, Bool.and_eq_true,
      decide_eq_true_iff]
    all_goals omega
  · rw [insertOsDpEdge_isOk]
    simp only [osDpCriticalityRatingCheck, osDpPerformanceRatingCheck,
      Bool.and_eq_true, decide_eq_true_iff]
    all_goals omega
  · rw [insertDpAppEdge_isOk]
    simp only [dpAppCriticalityRatingCheck, dpAppPerformanceRatingCheck,
      Bool.and_eq_true, decide_eq_true_iff]
    all_goals omega
  · rw [insertAppSbaEdge_isOk]
    simp only [appSbaPerformanceRatingCheck, Bool.and_eq_true,
      decide_eq_true_iff]

/-- C3 witness: at the boundary value 0, the Application performance check
rejects while the other checks accept. -/
theorem c3_witness :
    (surveyApplicationPerformanceRatingCheck 0 = true ↔
      0 < (0 : Int) ∧ (0 : Int) ≤ 100) ∧
    (osDpCriticalityRatingCheck 0 = true ↔
      0 ≤ (0 : Int) ∧ (0 : Int) ≤ 100) :=
  ⟨(c3_rating_ranges 0).1, (c3_rating_ranges 0).2.1⟩

/-- C9: each of the four shipped node types makes the input/output lookup
succeed (the misconfiguration branch is unreachable for them), and the
results encode the four-stage pipeline direction: ObservingSystem has output
only, DataProduct and Application have both, SocietalBenefitArea has input
only, each pointing at the adjacent edge class. -/
theorem c9_shipped_node_types_io :
    io__ surveyObservingSystemDecl =
      Except.ok { input := none
                , output := some "SurveyObservingSystemDataProduct" }
  ∧ io__ surveyDataProductDecl =
      Except.ok { input := some "SurveyObservingSystemDataProduct"
                , output := some "SurveyDataProductApplication" }
  ∧ io__ surveyApplicationDecl =
      Except.ok { input := some "SurveyDataProductApplication"
                , output := some "SurveyApplicationSocietalBenefitArea" }
  ∧ io__ surveySocietalBenefitAreaDecl =
      Except.ok { input := some "SurveyApplicationSocietalBenefitArea"
                , output := none } :=
  ⟨rfl, rfl, rfl, rfl⟩

/-- C10: a Survey created without explicitly supplied values gets the column
defaults: private False, status the first configured status, creator the
current logged-in user, and both timestamps the creation time (description
stays NULL). -/
theorem c10_survey_defaults (ctx : CreationContext) (id : Nat)
    (title : String) (h : ctx.statuses ≠ []) :
    (newSurvey ctx id title h).«private» = false
  ∧ (newSurvey ctx id title h).status_id = ctx.statuses.head h
  ∧ (newSurvey ctx id title h).created_by_id = ctx.current_user_id
  ∧ (newSurvey ctx id title h).created_timestamp = ctx.now
  ∧ (newSurvey ctx id title h).updated_timestamp = ctx.now
  ∧ (newSurvey ctx id title h).description = none :=
  ⟨rfl, rfl, rfl, rfl, rfl, rfl⟩

/-- Helper: the example creation context has a nonempty status list. -/
theorem exampleCtx_statuses_ne : exampleCtx.statuses ≠ [] := by decide

/-- C10 witness: the defaults evaluated on the example creation context. -/
theorem c10_witness :
    (newSurvey exampleCtx 1 "Example" exampleCtx_statuses_ne).«private» = false
  ∧ (newSurvey exampleCtx 1 "Example" exampleCtx_statuses_ne).status_id =
      "draft"
  ∧ (newSurvey exampleCtx 1 "Example" exampleCtx_statuses_ne).created_by_id =
      7
  ∧ (newSurvey exampleCtx 1 "Example"
      exampleCtx_statuses_ne).created_timestamp = 1700000000
  ∧ (newSurvey exampleCtx 1 "Example"
      exampleCtx_statuses_ne).updated_timestamp = 1700000000
  ∧ (newSurvey exampleCtx 1 "Example" exampleCtx_statuses_ne).description =
      none := by
  obtain ⟨p1, p2, p3, p4, p5, p6⟩ :=
    c10_survey_defaults exampleCtx 1 "Example" exampleCtx_statuses_ne
  exact ⟨p1, p2.trans rfl, p3, p4, p5, p6⟩

/-- C4 counterexample: the fourth node type, SurveySocietalBenefitArea, has
no short_name column at all (it does not use SurveyObjectFieldMixin), and its
declared uniqueness is on (societal_benefit_area_id, survey_id), so the claim
that short_name is unique within (survey, node-type) for every one of the
four node types fails at this node type. -/
theorem c4_counterexample :
    surveySocietalBenefitAreaSchema.columns.contains "short_name" = false ∧
    surveySocietalBenefitAreaSchema.uniqueConstraints =
      [["societal_benefit_area_id", "survey_id"]] :=
  ⟨rfl, rfl⟩

/-- C4 (amended): for the three node types that carry a short_name
(ObservingSystem, DataProduct, Application), any two distinct nodes of that
type in the same Survey have distinct short_name values; SocietalBenefitArea
nodes have no short_name field, and instead any two distinct such nodes in
the same Survey reference distinct societal benefit areas. -/
theorem c4_short_name_unique_amended :
    (surveyObservingSystemSchema.uniqueConstraints =
        [["short_name", "survey_id"]]
      ∧ surveyDataProductSchema.uniqueConstraints =
        [["short_name", "survey_id"]]
      ∧ surveyApplicationSchema.uniqueConstraints =
        [["short_name", "survey_id"]]
      ∧ surveySocietalBenefitAreaSchema.columns.contains "short_name" = false)
  ∧ (∀ (rows : List SurveyObservingSystemRow)
        (r1 r2 : SurveyObservingSystemRow),
      surveyObservingSystemTableOk rows = true → r1 ∈ rows → r2 ∈ rows →
      r1.id ≠ r2.id → r1.survey_id = r2.survey_id →
      r1.fields.short_name ≠ r2.fields.short_name)
  ∧ (∀ (rows : List SurveyDataProductRow) (r1 r2 : SurveyDataProductRow),
      surveyDataProductTableOk rows = true → r1 ∈ rows → r2 ∈ rows →
      r1.id ≠ r2.id → r1.survey_id = r2.survey_id →
      r1.fields.short_name ≠ r2.fields.short_name)
  ∧ (∀ (rows : List SurveyApplicationRow) (r1 r2 : SurveyApplicationRow),
      surveyApplicationTableOk rows = true → r1 ∈ rows → r2 ∈ rows →
      r1.id ≠ r2.id → r1.survey_id = r2.survey_id →
      r1.fields.short_name ≠ r2.fields.short_name)
  ∧ (∀ (rows : List SurveySocietalBenefitAreaRow)
        (r1 r2 : SurveySocietalBenefitAreaRow),
      surveySocietalBenefitAreaTableOk rows = true → r1 ∈ rows → r2 ∈ rows →
      r1.id ≠ r2.id → r1.survey_id = r2.survey_id →
      r1.societal_benefit_area_id ≠ r2.societal_benefit_area_id) := by
  refine ⟨⟨rfl, rfl, rfl, rfl⟩, ?_, ?_, ?_, ?_⟩
  · intro rows r1 r2 hok h1 h2 hid hs hname
    simp only [surveyObservingSystemTableOk, Bool.and_eq_true] at hok
    have heq := nodupBy_eq_of_mem
      (fun r : SurveyObservingSystemRow => (r.fields.short_name, r.survey_id))
      rows r1 r2 hok.2 h1 h2 (by simp only [hname, hs])
    exact hid (by rw [heq])
  · intro rows r1 r2 hok h1 h2 hid hs hname
    simp only [surveyDataProductTableOk, Bool.and_eq_true] at hok
    have heq := nodupBy_eq_of_mem
      (fun r : SurveyDataProductRow => (r.fields.short_name, r.survey_id))
      rows r1 r2 hok.2 h1 h2 (by simp only [hname, hs])
    exact hid (by rw [heq])
  · intro rows r1 r2 hok h1 h2 hid hs hname
    simp only [surveyApplicationTableOk, Bool.and_eq_true] at hok
    have heq := nodupBy_eq_of_mem
      (fun r : SurveyApplicationRow => (r.fields.short_name, r.survey_id))
      rows r1 r2 hok.1.2 h1 h2 (by simp only [hname, hs])
    exact hid (by rw [heq])
  · intro rows r1 r2 hok h1 h2 hid hs hname
    simp only [surveySocietalBenefitAreaTableOk, Bool.and_eq_true] at hok
    have heq := nodupBy_eq_of_mem
      (fun r : SurveySocietalBenefitAreaRow =>
        (r.societal_benefit_area_id, r.survey_id))
      rows r1 r2 hok.2 h1 h2 (by simp only [hname, hs])
    exact hid (by rw [heq])

/-- C4 witness: two observing systems of the same survey satisfying the table
constraints have distinct short names. -/
theorem c4_witness : osRowA.fields.short_name ≠ osRowB.fields.short_name :=
  c4_short_name_unique_amended.2.1 [osRowA, osRowB] osRowA osRowB (by decide)
    (by simp) (by simp) (by decide) rfl

/-- C5 counterexample: a database state satisfying every declared constraint
of the schema in which an edge connects an ObservingSystem of survey 1 to a
DataProduct of survey 2, so the declared schema does not make edge endpoints
share a Survey. -/
theorem c5_counterexample :
    dbValid crossSurveyDb = true ∧ edgesSameSurvey crossSurveyDb = false := by
  exact ⟨by decide, by decide⟩

/-- C5 (amended): the same-survey property of edge endpoints is intended but
not enforced: there is a database state satisfying all declared constraints
whose edges cross surveys, and no edge table even carries a survey column of
its own. -/
theorem c5_same_survey_not_enforced :
    (∃ db : DBState, dbValid db = true ∧ edgesSameSurvey db = false)
  ∧ surveyObservingSystemDataProductSchema.columns.contains "survey_id" =
      false
  ∧ surveyDataProductApplicationSchema.columns.contains "survey_id" = false
  ∧ surveyApplicationSocietalBenefitAreaSchema.columns.contains "survey_id" =
      false :=
  ⟨⟨crossSurveyDb, by decide, by decide⟩, rfl, rfl, rfl⟩

/-- C6: within each of the three edge tables the (source-id, target-id) pair
is unique (each table both declares the pair UniqueConstraint and, under SQL
NULL semantics, a valid table state cannot hold two distinct edges joining
the same source node to the same target node). -/
theorem c6_edge_pair_unique :
    (surveyObservingSystemDataProductSchema.uniqueConstraints =
        [["survey_observing_system_id", "survey_data_product_id"]]
      ∧ surveyDataProductApplicationSchema.uniqueConstraints =
        [["survey_data_product_id", "survey_application_id"]]
      ∧ surveyApplicationSocietalBenefitAreaSchema.uniqueConstraints =
        [["survey_application_id", "survey_societal_benefit_area_id"]])
  ∧ (∀ (rows : List SurveyObservingSystemDataProductRow)
        (e1 e2 : SurveyObservingSystemDataProductRow),
      osDpEdgeTableOk rows = true → e1 ∈ rows → e2 ∈ rows →
      e1.survey_observing_system_id = e2.survey_observing_system_id →
      e1.survey_data_product_id = e2.survey_data_product_id →
      e1 = e2 ∨ e1.survey_observing_system_id = none ∨
        e1.survey_data_product_id = none)
  ∧ (∀ (rows : List SurveyDataProductApplicationRow)
        (e1 e2 : SurveyDataProductApplicationRow),
      dpAppEdgeTableOk rows = true → e1 ∈ rows → e2 ∈ rows →
      e1.survey_data_product_id = e2.survey_data_product_id →
      e1.survey_application_id = e2.survey_application_id →
      e1 = e2 ∨ e1.survey_data_product_id = none ∨
        e1.survey_application_id = none)
  ∧ (∀ (rows : List SurveyApplicationSocietalBenefitAreaRow)
        (e1 e2 : SurveyApplicationSocietalBenefitAreaRow),
      appSbaEdgeTableOk rows = true → e1 ∈ rows → e2 ∈ rows →
      e1.survey_application_id = e2.survey_application_id →
      e1.survey_societal_benefit_area_id =
        e2.survey_societal_benefit_area_id →
      e1 = e2 ∨ e1.survey_application_id = none ∨
        e1.survey_societal_benefit_area_id = none) := by
  refine ⟨⟨rfl, rfl, rfl⟩, ?_, ?_, ?_⟩
  · intro rows e1 e2 hok h1 h2 hsrc htgt
    rcases hs : e1.survey_observing_system_id with _ | s
    · exact Or.inr (Or.inl rfl)
    rcases ht : e1.survey_data_product_id with _ | t
    · exact Or.inr (Or.inr rfl)
    refine Or.inl ?_
    simp only [osDpEdgeTableOk, Bool.and_eq_true] at hok
    have hm1 : e1 ∈ rows.filter (fun e =>
        e.survey_observing_system_id.isSome &&
        e.survey_data_product_id.isSome) :=
      List.mem_filter.mpr ⟨h1, by simp [hs, ht]⟩
    have hm2 : e2 ∈ rows.filter (fun e =>
        e.survey_observing_system_id.isSome &&
        e.survey_data_product_id.isSome) :=
      List.mem_filter.mpr ⟨h2, by simp [← hsrc, ← htgt, hs, ht]⟩
    exact nodupBy_eq_of_mem
      (fun e : SurveyObservingSystemDataProductRow =>
        (e.survey_observing_system_id, e.survey_data_product_id))
      _ e1 e2 hok.1.2 hm1 hm2 (by simp only [hsrc, htgt])
  · intro rows e1 e2 hok h1 h2 hsrc htgt
    rcases hs : e1.survey_data_product_id with _ | s
    · exact Or.inr (Or.inl rfl)
    rcases ht : e1.survey_application_id with _ | t
    · exact Or.inr (Or.inr rfl)
    refine Or.inl ?_
    simp only [dpAppEdgeTableOk, Bool.and_eq_true] at hok
    have hm1 : e1 ∈ rows.filter (fun e =>
        e.survey_data_product_id.isSome && e.survey_application_id.isSome) :=
      List.mem_filter.mpr ⟨h1, by simp [hs, ht]⟩
    have hm2 : e2 ∈ rows.filter (fun e =>
        e.survey_data_product_id.isSome && e.survey_application_id.isSome) :=
      List.mem_filter.mpr ⟨h2, by simp [← hsrc, ← htgt, hs, ht]⟩
    exact nodupBy_eq_of_mem
      (fun e : SurveyDataProductApplicationRow =>
        (e.survey_data_product_id, e.survey_application_id))
      _ e1 e2 hok.1.2 hm1 hm2 (by simp only [hsrc, htgt])
  · intro rows e1 e2 hok h1 h2 hsrc htgt
    rcases hs : e1.survey_application_id with _ | s
    · exact Or.inr (Or.inl rfl)
    rcases ht : e1.survey_societal_benefit_area_id with _ | t
    · exact Or.inr (Or.inr rfl)
    refine Or.inl ?_
    simp only [appSbaEdgeTableOk, Bool.and_eq_true] at hok
    have hm1 : e1 ∈ rows.filter (fun e =>
        e.survey_application_id.isSome &&
        e.survey_societal_benefit_area_id.isSome) :=
      List.mem_filter.mpr ⟨h1, by simp [hs, ht]⟩
    have hm2 : e2 ∈ rows.filter (fun e =>
        e.survey_application_id.isSome &&
        e.survey_societal_benefit_area_id.isSome) :=
      List.mem_filter.mpr ⟨h2, by simp [← hsrc, ← htgt, hs, ht]⟩
    exact nodupBy_eq_of_mem
      (fun e : SurveyApplicationSocietalBenefitAreaRow =>
        (e.survey_application_id, e.survey_societal_benefit_area_id))
      _ e1 e2 hok.1.2 hm1 hm2 (by simp only [hsrc, htgt])

/-- C6 witness: two valid edge rows with the same non-NULL source and NULL
targets agree on their pairs without being the same row, which forces the
NULL disjunct. -/
theorem c6_witness :
    nullTargetEdge1 = nullTargetEdge2 ∨
    nullTargetEdge1.survey_observing_system_id = none ∨
    nullTargetEdge1.survey_data_product_id = none :=
  c6_edge_pair_unique.2.1 [nullTargetEdge1, nullTargetEdge2] nullTargetEdge1
    nullTargetEdge2 (by decide) (by simp) (by simp) rfl rfl

/-- C7: every edge variant exposes the uniform source/target accessor pair,
source being the earlier-stage relationship (observing_system, data_product,
application respectively) and target the later-stage relationship
(data_product, application, societal_benefit_area respectively); a resolved
source or target is a node of the corresponding earlier/later-stage table
referenced by the edge's matching foreign key. -/
theorem c7_source_target_accessors :
    (∀ (g : GraphTables) (e : SurveyObservingSystemDataProductRow),
        osDpSource g e = osDpObservingSystem g e ∧
        osDpTarget g e = osDpDataProduct g e)
  ∧ (∀ (g : GraphTables) (e : SurveyObservingSystemDataProductRow)
        (n : SurveyObservingSystemRow), osDpSource g e = some n →
        n ∈ g.observing_systems ∧
        e.survey_observing_system_id = some n.id)
  ∧ (∀ (g : GraphTables) (e : SurveyObservingSystemDataProductRow)
        (n : SurveyDataProductRow), osDpTarget g e = some n →
        n ∈ g.data_products ∧ e.survey_data_product_id = some n.id)
  ∧ (∀ (g : GraphTables) (e : SurveyDataProductApplicationRow),
        dpAppSource g e = dpAppDataProduct g e ∧
        dpAppTarget g e = dpAppApplication g e)
  ∧ (∀ (g : GraphTables) (e : SurveyDataProductApplicationRow)
        (n : SurveyDataProductRow), dpAppSource g e = some n →
        n ∈ g.data_products ∧ e.survey_data_product_id = some n.id)
  ∧ (∀ (g : GraphTables) (e : SurveyDataProductApplicationRow)
        (n : SurveyApplicationRow), dpAppTarget g e = some n →
        n ∈ g.applications ∧ e.survey_application_id = some n.id)
  ∧ (∀ (g : GraphTables) (e : SurveyApplicationSocietalBenefitAreaRow),
        appSbaSource g e = appSbaApplication g e ∧
        appSbaTarget g e = appSbaSocietalBenefitArea g e)
  ∧ (∀ (g : GraphTables) (e : SurveyApplicationSocietalBenefitAreaRow)
        (n : SurveyApplicationRow), appSbaSource g e = some n →
        n ∈ g.applications ∧ e.survey_application_id = some n.id)
  ∧ (∀ (g : GraphTables) (e : SurveyApplicationSocietalBenefitAreaRow)
        (n : SurveySocietalBenefitAreaRow), appSbaTarget g e = some n →
        n ∈ g.societal_benefit_areas ∧
        e.survey_societal_benefit_area_id = some n.id) := by
  refine ⟨fun g e => ⟨rfl, rfl⟩, ?_, ?_, fun g e => ⟨rfl, rfl⟩, ?_, ?_,
    fun g e => ⟨rfl, rfl⟩, ?_, ?_⟩
  · intro g e n h
    rw [osDpSource, osDpObservingSystem] at h
    rcases Option.bind_eq_some.mp h with ⟨i, hi, hf⟩
    have hp := List.find?_some hf
    simp only [beq_iff_eq] at hp
    exact ⟨List.mem_of_find?_eq_some hf, by rw [hi, hp]⟩
  · intro g e n h
    rw [osDpTarget, osDpDataProduct] at h
    rcases Option.bind_eq_some.mp h with ⟨i, hi, hf⟩
    have hp := List.find?_some hf
    simp only [beq_iff_eq] at hp
    exact ⟨List.mem_of_find?_eq_some hf, by rw [hi, hp]⟩
  · intro g e n h
    rw [dpAppSource, dpAppDataProduct] at h
    rcases Option.bind_eq_some.mp h with ⟨i, hi, hf⟩
    have hp := List.find?_some hf
    simp only [beq_iff_eq] at hp
    exact ⟨List.mem_of_find?_eq_some hf, by rw [hi, hp]⟩
  · intro g e n h
    rw [dpAppTarget, dpAppApplication] at h
    rcases Option.bind_eq_some.mp h with ⟨i, hi, hf⟩
    have hp := List.find?_some hf
    simp only [beq_iff_eq] at hp
    exact ⟨List.mem_of_find?_eq_some hf, by rw [hi, hp]⟩
  · intro g e n h
    rw [appSbaSource, appSbaApplication] at h
    rcases Option.bind_eq_some.mp h with ⟨i, hi, hf⟩
    have hp := List.find?_some hf
    simp only [beq_iff_eq] at hp
    exact ⟨List.mem_of_find?_eq_some hf, by rw [hi, hp]⟩
  · intro g e n h
    rw [appSbaTarget, appSbaSocietalBenefitArea] at h
    rcases Option.bind_eq_some.mp h with ⟨i, hi, hf⟩
    have hp := List.find?_some hf
    simp only [beq_iff_eq] at hp
    exact ⟨List.mem_of_find?_eq_some hf, by rw [hi, hp]⟩

/-- C7 witness: on the scenario graph, the source of the O to D edge resolves
to the observing-system node the edge's foreign key references. -/
theorem c7_witness :
    c1ObsNode ∈ c1Graph.observing_systems ∧
    c1OsDpEdge.survey_observing_system_id = some c1ObsNode.id :=
  c7_source_target_accessors.2.1 c1Graph c1OsDpEdge c1ObsNode (by decide)

/-- C8: each of the three project routes answers HTTP 404 on an identifier
with no matching Survey; on an existing Survey the fetch succeeds, but the
handlers then evaluate project.response, an attribute the Survey model of
models/tables.py does not define, so rendering raises AttributeError instead
of proceeding. -/
theorem c8_routes_404_and_missing_response :
    view_project singleSurveyDb 999 = RouteOutcome.http404
  ∧ view_project_overview singleSurveyDb 999 = RouteOutcome.http404
  ∧ edit_project singleSurveyDb 999 = RouteOutcome.http404
  ∧ get_or_404 singleSurveyDb 1 =
      some { id := 1, title := "S1", status_id := "draft", created_by_id := 1
           , created_timestamp := 0, updated_timestamp := 0
           , description := none, «private» := false }
  ∧ view_project singleSurveyDb 1 = RouteOutcome.attributeError "response"
  ∧ view_project_overview singleSurveyDb 1 =
      RouteOutcome.attributeError "response"
  ∧ edit_project singleSurveyDb 1 = RouteOutcome.attributeError "response"
  ∧ surveyModelAttributes.contains "response" = false := by
  refine ⟨rfl, rfl, rfl, by decide, rfl, rfl, rfl, by decide⟩
